import Mathlib

/-!
TrueLight `python-detection` service: a shallow embedding.

This file embeds the three source files of the service
(`color_analyzer.py`, `detector.py`, `main.py`) as executable Lean
definitions and settles the specification claims about them.

Modelling conventions:

* Pixel regions are modelled after the external BGR-to-HSV conversion
  (`cv2.cvtColor`), i.e. a region of interest is a flat list of HSV
  triples; the colour-space conversion itself is an external
  collaborator and `roi.size == 0` corresponds to the empty list.
* Python floats are modelled as exact rationals; `round(x, 1)` is
  modelled as exact rounding to one decimal with ties to even
  (Python banker's rounding), and `int(x)` as truncation toward zero.
* Python dicts with string keys are modelled as association lists in
  insertion order (Python dicts preserve insertion order); `sorted`
  and `list.sort` are modelled by a stable insertion sort.
* The network forward pass (`net.forward`) is an external
  collaborator: the detector embedding takes the raw anchor tensor as
  an argument.  `cv2.dnn.NMSBoxes` is an external OpenCV routine and
  is modelled by the greedy score-ordered suppression it documents.
-/

namespace TrueLight

/-- An HSV pixel value, as produced by the external BGR-to-HSV
conversion (`cv2.cvtColor(roi, cv2.COLOR_BGR2HSV)`). -/
structure Hsv where
  hh : ℕ
  ss : ℕ
  vv : ℕ
deriving DecidableEq

/-- An inclusive HSV range `((H_min, S_min, V_min), (H_max, S_max, V_max))`
as used by `COLOR_RANGES` in `color_analyzer.py`. -/
structure HsvRange where
  lo : Hsv
  hi : Hsv
deriving DecidableEq

/-- `cv2.inRange`: a pixel matches iff each of its three components lies
inside the inclusive component range. -/
def inRange (r : HsvRange) (p : Hsv) : Bool :=
  decide (r.lo.hh ≤ p.hh ∧ p.hh ≤ r.hi.hh ∧
          r.lo.ss ≤ p.ss ∧ p.ss ≤ r.hi.ss ∧
          r.lo.vv ≤ p.vv ∧ p.vv ≤ r.hi.vv)

/-- The static `COLOR_RANGES` dict of `color_analyzer.py`, in insertion
order. -/
def COLOR_RANGES : List (String × HsvRange) :=
  [ ("red_low",  ⟨⟨0, 100, 100⟩,   ⟨10, 255, 255⟩⟩),
    ("red_high", ⟨⟨160, 100, 100⟩, ⟨180, 255, 255⟩⟩),
    ("orange",   ⟨⟨10, 100, 100⟩,  ⟨25, 255, 255⟩⟩),
    ("yellow",   ⟨⟨25, 100, 100⟩,  ⟨35, 255, 255⟩⟩),
    ("green",    ⟨⟨35, 100, 100⟩,  ⟨85, 255, 255⟩⟩),
    ("cyan",     ⟨⟨85, 100, 100⟩,  ⟨100, 255, 255⟩⟩),
    ("blue",     ⟨⟨100, 100, 100⟩, ⟨130, 255, 255⟩⟩),
    ("purple",   ⟨⟨130, 100, 100⟩, ⟨160, 255, 255⟩⟩),
    ("white",    ⟨⟨0, 0, 200⟩,     ⟨180, 30, 255⟩⟩),
    ("black",    ⟨⟨0, 0, 0⟩,       ⟨180, 255, 50⟩⟩) ]

/-- The `ColorBlindnessType` enumeration of `color_analyzer.py`. -/
inductive ColorBlindnessType where
  | NORMAL
  | PROTANOPIA
  | PROTANOMALY
  | DEUTERANOPIA
  | DEUTERANOMALY
  | TRITANOPIA
  | TRITANOMALY
  | ACHROMATOPSIA
deriving DecidableEq

/-- The `PROBLEMATIC_COLORS` dict: every enumeration member is a key, so
`PROBLEMATIC_COLORS.get(t, [])` is this total function.  For
`ACHROMATOPSIA` the value is `list(COLOR_RANGES.keys())`. -/
def PROBLEMATIC_COLORS : ColorBlindnessType → List String
  | .NORMAL => []
  | .PROTANOPIA => ["red_low", "red_high", "orange", "green"]
  | .PROTANOMALY => ["red_low", "red_high", "orange"]
  | .DEUTERANOPIA => ["red_low", "red_high", "green", "yellow"]
  | .DEUTERANOMALY => ["green", "yellow"]
  | .TRITANOPIA => ["blue", "yellow", "cyan"]
  | .TRITANOMALY => ["blue", "yellow"]
  | .ACHROMATOPSIA => COLOR_RANGES.map Prod.fst

/-- The `COLOR_DISPLAY_NAMES` dict. -/
def COLOR_DISPLAY_NAMES : List (String × String) :=
  [ ("red_low", "red"), ("red_high", "red"), ("orange", "orange"),
    ("yellow", "yellow"), ("green", "green"), ("cyan", "cyan"),
    ("blue", "blue"), ("purple", "purple"), ("white", "white"),
    ("black", "black") ]

/-- `COLOR_DISPLAY_NAMES.get(color_name, color_name)`. -/
def displayName (c : String) : String :=
  (COLOR_DISPLAY_NAMES.lookup c).getD c

/-- Python `round` to the nearest integer with ties to even (banker's
rounding), on exact rationals. -/
def pyRound (q : ℚ) : ℤ :=
  if q - ⌊q⌋ < 1/2 then ⌊q⌋
  else if (1:ℚ)/2 < q - ⌊q⌋ then ⌊q⌋ + 1
  else if ⌊q⌋ % 2 = 0 then ⌊q⌋ else ⌊q⌋ + 1

/-- Python `round(x, 1)`. -/
def round1 (q : ℚ) : ℚ := (pyRound (10 * q) : ℚ) / 10

/-- The percentage `(color_pixels / total_pixels) * 100` computed by
`ColorAnalyzer.detect_colors` for one colour range. -/
def pctOf (roi : List Hsv) (r : HsvRange) : ℚ :=
  ((roi.countP (inRange r) : ℕ) : ℚ) / ((roi.length : ℕ) : ℚ) * 100

/-- `ColorAnalyzer.detect_colors`: for each static colour range, the
percentage of matching pixels; buckets are retained only when the
(unrounded) percentage exceeds 5 and are stored rounded to one
decimal, in `COLOR_RANGES` iteration order. -/
def detect_colors (roi : List Hsv) : List (String × ℚ) :=
  if roi.isEmpty then []
  else
    COLOR_RANGES.filterMap fun nr =>
      if 5 < pctOf roi nr.2 then some (nr.1, round1 (pctOf roi nr.2)) else none

/-- The comparison used by `sorted(color_percentages.items(),
key=lambda x: x[1], reverse=True)`: descending by percentage. -/
def pctGe (a b : String × ℚ) : Prop := b.2 ≤ a.2

instance : DecidableRel pctGe :=
  fun a b => inferInstanceAs (Decidable (b.2 ≤ a.2))

/-- Python `sorted(..., key=lambda x: x[1], reverse=True)`: a stable
sort, descending by percentage (equal percentages keep dict insertion
order). -/
def sortDesc (l : List (String × ℚ)) : List (String × ℚ) :=
  List.insertionSort pctGe l

/-- The loop of `ColorAnalyzer.get_dominant_colors`: walk the sorted
buckets, collect unseen display names, and stop as soon as the
collected list reaches `top_n` (the length test runs after a possible
append, so duplicates are skipped without counting). -/
def dominantLoop (top_n : ℕ) (seen dominant : List String) :
    List (String × ℚ) → List String
  | [] => dominant
  | (c, _) :: rest =>
    let d := displayName c
    let seen2 := if d ∈ seen then seen else d :: seen
    let dominant2 := if d ∈ seen then dominant else dominant ++ [d]
    if top_n ≤ dominant2.length then dominant2
    else dominantLoop top_n seen2 dominant2 rest

/-- `ColorAnalyzer.get_dominant_colors` (default `top_n = 3`). -/
def get_dominant_colors (roi : List Hsv) (top_n : ℕ := 3) : List String :=
  dominantLoop top_n [] [] (sortDesc (detect_colors roi))

/-- The scan of `ColorAnalyzer.is_problematic_for_user`: collect
`(display_name, percentage)` for every breakdown entry that is in the
problematic list and exceeds 10 percent, in breakdown order. -/
def findProblematic (problematic : List String) :
    List (String × ℚ) → List (String × ℚ)
  | [] => []
  | (c, p) :: rest =>
    if c ∈ problematic ∧ 10 < p then
      (displayName c, p) :: findProblematic problematic rest
    else findProblematic problematic rest

/-- `ColorAnalyzer.is_problematic_for_user`. -/
def is_problematic_for_user (detected_colors : List (String × ℚ))
    (colorblindness_type : ColorBlindnessType) : Bool × Option String :=
  let problematic := PROBLEMATIC_COLORS colorblindness_type
  if problematic.isEmpty then (false, none)
  else
    let found := findProblematic problematic detected_colors
    if found.isEmpty then (false, none)
    else
      (true, some ("Contains " ++
        String.intercalate ", " ((found.take 2).map Prod.fst) ++
        " - may be difficult to see"))

/-- The result dict of `ColorAnalyzer.analyze_region`.  In the
zero-size branch the Python dict has no `color_breakdown` key; that
branch is modelled with an empty breakdown (the key is never read by
any caller). -/
structure AnalysisResult where
  dominant_colors : List String
  is_problematic : Bool
  warning : Option String
  color_breakdown : List (String × ℚ)
deriving DecidableEq

/-- `ColorAnalyzer.analyze_region`. -/
def analyze_region (roi : List Hsv)
    (colorblindness_type : ColorBlindnessType) : AnalysisResult :=
  if roi.isEmpty then ⟨[], false, none, []⟩
  else
    let detected := detect_colors roi
    let dominant := get_dominant_colors roi 3
    let pw := is_problematic_for_user detected colorblindness_type
    ⟨dominant, pw.1, pw.2, detected⟩

/-- The `COCO_CLASSES` catalog of `detector.py` (80 class names). -/
def COCO_CLASSES : List String :=
  [ "person", "bicycle", "car", "motorcycle", "airplane", "bus", "train",
    "truck", "boat", "traffic light", "fire hydrant", "stop sign",
    "parking meter", "bench", "bird", "cat", "dog", "horse", "sheep",
    "cow", "elephant", "bear", "zebra", "giraffe", "backpack", "umbrella",
    "handbag", "tie", "suitcase", "frisbee", "skis", "snowboard",
    "sports ball", "kite", "baseball bat", "baseball glove", "skateboard",
    "surfboard", "tennis racket", "bottle", "wine glass", "cup", "fork",
    "knife", "spoon", "bowl", "banana", "apple", "sandwich", "orange",
    "broccoli", "carrot", "hot dog", "pizza", "donut", "cake", "chair",
    "couch", "potted plant", "bed", "dining table", "toilet", "tv",
    "laptop", "mouse", "remote", "keyboard", "cell phone", "microwave",
    "oven", "toaster", "sink", "refrigerator", "book", "clock", "vase",
    "scissors", "teddy bear", "hair drier", "toothbrush" ]

/-- The `RELEVANT_OBJECTS` dict of `detector.py`: label to
`(priority, color_relevant)`. -/
def RELEVANT_OBJECTS : List (String × String × Bool) :=
  [ ("traffic light", "critical", true), ("stop sign", "critical", true),
    ("car", "high", true), ("truck", "high", true), ("bus", "high", true),
    ("motorcycle", "high", true), ("bicycle", "medium", false),
    ("person", "medium", false), ("fire hydrant", "low", true),
    ("dog", "medium", false), ("cat", "low", false), ("bird", "low", false),
    ("bench", "low", false), ("umbrella", "low", true),
    ("backpack", "low", false), ("handbag", "low", false),
    ("suitcase", "low", false), ("bottle", "low", false),
    ("chair", "low", false), ("couch", "low", false),
    ("potted plant", "low", true), ("tv", "low", false),
    ("laptop", "low", false), ("cell phone", "low", false),
    ("boat", "low", false), ("train", "medium", true),
    ("airplane", "low", false) ]

/-- Python `int(x)` on a float: truncation toward zero. -/
def pyInt (q : ℚ) : ℤ := if q < 0 then ⌈q⌉ else ⌊q⌋

/-- Tail of `np.argmax`: index of the first maximal element, given the
best value and index seen so far. -/
def argmaxGo (i best : ℕ) (bestVal : ℚ) : List ℚ → ℕ
  | [] => best
  | x :: rest =>
    if bestVal < x then argmaxGo (i + 1) i x rest
    else argmaxGo (i + 1) best bestVal rest

/-- `np.argmax(scores)`: index of the first maximal score (0 on an
empty list, a case the Python code never reaches into). -/
def npArgmax : List ℚ → ℕ
  | [] => 0
  | x :: rest => argmaxGo 1 0 x rest

/-- One raw candidate detection `(box, confidence, class_id)` collected
by `ObjectDetector.detect` before suppression; the three parallel
Python lists `boxes`, `confidences`, `class_ids` are modelled as one
list of these triples. -/
structure RawDet where
  bx : ℤ
  by2 : ℤ
  bw : ℤ
  bh : ℤ
  conf : ℚ
  classId : ℕ
deriving DecidableEq

/-- Map one anchor row to a candidate, as the inner loop of
`ObjectDetector.detect` does: take the scores after the 4 box fields
and the objectness field, pick the best class, and keep the row only
when that best score strictly exceeds the confidence threshold. -/
def mkCandidate (width height : ℕ) (thr : ℚ) (row : List ℚ) : Option RawDet :=
  let scores := row.drop 5
  let class_id := npArgmax scores
  let confidence := scores.getD class_id 0
  if thr < confidence then
    let center_x := pyInt (row.getD 0 0 * width)
    let center_y := pyInt (row.getD 1 0 * height)
    let w := pyInt (row.getD 2 0 * width)
    let h := pyInt (row.getD 3 0 * height)
    let x := pyInt ((center_x : ℚ) - (w : ℚ) / 2)
    let y := pyInt ((center_y : ℚ) - (h : ℚ) / 2)
    some ⟨x, y, w, h, confidence, class_id⟩
  else none

/-- Intersection-over-union of two `[x, y, w, h]` boxes, used by the
external `cv2.dnn.NMSBoxes` greedy suppression. -/
def iou (a b : RawDet) : ℚ :=
  let ix : ℤ := max 0 (min (a.bx + a.bw) (b.bx + b.bw) - max a.bx b.bx)
  let iy : ℤ := max 0 (min (a.by2 + a.bh) (b.by2 + b.bh) - max a.by2 b.by2)
  let inter : ℤ := ix * iy
  let uni : ℤ := a.bw * a.bh + b.bw * b.bh - inter
  if uni ≤ 0 then 0 else (inter : ℚ) / (uni : ℚ)

/-- Descending-confidence comparison for the suppression scan. -/
def confGe (a b : RawDet) : Prop := b.conf ≤ a.conf

instance : DecidableRel confGe :=
  fun a b => inferInstanceAs (Decidable (b.conf ≤ a.conf))

/-- Greedy overlap suppression (the documented behaviour of the
external `cv2.dnn.NMSBoxes`): scan candidates in descending score
order and keep a candidate iff its IoU with every already-kept
candidate is at most the nms threshold. -/
def nmsScan (nmsThr : ℚ) (kept : List RawDet) : List RawDet → List RawDet
  | [] => kept
  | d :: rest =>
    if kept.all fun k => iou k d ≤ nmsThr then
      nmsScan nmsThr (kept ++ [d]) rest
    else nmsScan nmsThr kept rest

/-- `cv2.dnn.NMSBoxes(boxes, confidences, score_threshold, nms_threshold)`:
drop candidates whose score does not exceed the score threshold, then
run greedy suppression in descending score order. -/
def NMSBoxes (scoreThr nmsThr : ℚ) (cands : List RawDet) : List RawDet :=
  nmsScan nmsThr [] (List.insertionSort confGe (cands.filter fun c => scoreThr < c.conf))

/-- One element of the list returned by `ObjectDetector.detect`: a dict
with label, confidence, bbox `(x, y, w, h)`, priority and colour
relevance. -/
structure Detection where
  label : String
  confidence : ℚ
  dx : ℤ
  dy : ℤ
  dw : ℤ
  dh : ℤ
  priority : String
  color_relevant : Bool
deriving DecidableEq

/-- `priority_order.get(priority, 4)` used for the final sort of
`ObjectDetector.detect`. -/
def priorityRank (p : String) : ℕ :=
  ([("critical", 0), ("high", 1), ("medium", 2), ("low", 3)].lookup p).getD 4

/-- Ascending-priority-rank comparison for the final stable sort. -/
def rankLe (a b : Detection) : Prop := priorityRank a.priority ≤ priorityRank b.priority

instance : DecidableRel rankLe :=
  fun a b => inferInstanceAs (Decidable (priorityRank a.priority ≤ priorityRank b.priority))

/-- Build the output dict for one kept candidate: look up the label,
clip the box to the frame, and attach the static
`RELEVANT_OBJECTS` descriptor (default `("low", false)`). -/
def mkDetection (width height : ℕ) (c : RawDet) : Detection :=
  let label := COCO_CLASSES.getD c.classId ""
  let x := max 0 c.bx
  let y := max 0 c.by2
  let w := min c.bw ((width : ℤ) - x)
  let h := min c.bh ((height : ℤ) - y)
  let info := (RELEVANT_OBJECTS.lookup label).getD ("low", false)
  ⟨label, c.conf, x, y, w, h, info.1, info.2⟩

/-- `ObjectDetector.detect`, from the raw anchor tensor on (the forward
pass producing `outputs` is the external inference engine; `outputs`
is a list of arrays, each an array of anchor rows).  Candidates above
the confidence threshold are collected, suppressed with
`cv2.dnn.NMSBoxes(..., confidence_threshold, 0.4)`, converted to
labelled clipped detections and stably sorted by priority rank. -/
def detect (outputs : List (List (List ℚ))) (width height : ℕ)
    (confidence_threshold : ℚ) : List Detection :=
  let rows := outputs.flatten
  let candidates := rows.filterMap (mkCandidate width height confidence_threshold)
  let kept := NMSBoxes confidence_threshold (2/5) candidates
  let detections := kept.map (mkDetection width height)
  List.insertionSort rankLe detections

/-- Lower-casing of an ASCII label, modelling Python `str.lower()`
(the identifiers in play are ASCII). -/
def pyLower (s : String) : String := ⟨s.data.map Char.toLower⟩

/-- Character-list prefix test (an auxiliary for the Python substring
operator `in`). -/
def startsWith : List Char → List Char → Bool
  | [], _ => true
  | _ :: _, [] => false
  | a :: as, b :: bs => a == b && startsWith as bs

/-- Contiguous-occurrence test on character lists. -/
def occursIn (needle : List Char) : List Char → Bool
  | [] => needle.isEmpty
  | c :: rest => startsWith needle (c :: rest) || occursIn needle rest

/-- The Python substring operator `needle in hay` on strings. -/
def strIn (needle hay : String) : Bool := occursIn needle.data hay.data

/-- The `critical_objects` list of `determine_priority`. -/
def criticalObjects : List String :=
  ["traffic light", "stop sign", "fire", "emergency vehicle"]

/-- The `high_objects` list of `determine_priority`. -/
def highObjects : List String :=
  ["brake light", "turn signal", "yield sign", "warning sign", "cone"]

/-- `determine_priority` of `main.py`. -/
def determine_priority (label : String) (is_problematic : Bool) : String :=
  let label_lower := pyLower label
  if criticalObjects.any (fun o => strIn o label_lower) then
    if is_problematic then "critical" else "high"
  else if highObjects.any (fun o => strIn o label_lower) then
    if is_problematic then "high" else "normal"
  else
    if is_problematic then "normal" else "low"

/-- The `DetectedObject` response model of `main.py`. -/
structure DetectedObject where
  label : String
  confidence : ℚ
  dx : ℤ
  dy : ℤ
  dw : ℤ
  dh : ℤ
  dominant_colors : List String
  is_problematic_color : Bool
  color_warning : Option String
  priority : String
deriving DecidableEq

/-- The `DetectionResponse` model of `main.py` (the `success` flag and
wall-clock `processing_time_ms` are transport concerns and omitted). -/
structure DetectionResponse where
  objects : List DetectedObject
  frame_width : ℕ
  frame_height : ℕ
  alert_message : Option String
deriving DecidableEq

/-- `ColorBlindnessType(request.colorblindness_type.lower())` with the
`except ValueError` fallback to `NORMAL`. -/
def parseProfile (s : String) : ColorBlindnessType :=
  let l := pyLower s
  if l = "normal" then .NORMAL
  else if l = "protanopia" then .PROTANOPIA
  else if l = "protanomaly" then .PROTANOMALY
  else if l = "deuteranopia" then .DEUTERANOPIA
  else if l = "deuteranomaly" then .DEUTERANOMALY
  else if l = "tritanopia" then .TRITANOPIA
  else if l = "tritanomaly" then .TRITANOMALY
  else if l = "achromatopsia" then .ACHROMATOPSIA
  else .NORMAL

/-- The f-string fragment
`color_info.get('warning', 'color may be hard to see')`: the
`warning` key is always present in the `analyze_region` result, so
`dict.get` returns its value even when that value is `None`, which the
f-string renders as the text `None`. -/
def warningStr : Option String → String
  | some w => w
  | none => "None"

/-- The ROI slice `frame[y:y+h, x:x+w]` (after the detector clipping,
`x` and `y` are nonnegative), flattened to a pixel list for the colour
analyzer; a nonpositive width or height yields an empty slice. -/
def roiOf (frame : List (List Hsv)) (x y w h : ℤ) : List Hsv :=
  (((frame.drop y.toNat).take h.toNat).map
    fun row => (row.drop x.toNat).take w.toNat).flatten

/-- The per-detection loop of the `/detect` endpoint: build the
`DetectedObject` list and, for problematic objects of critical or high
final priority, the `critical_alerts` list, in processing order. -/
def processDets (frame : List (List Hsv)) (cb : ColorBlindnessType) :
    List Detection → List DetectedObject × List String
  | [] => ([], [])
  | det :: rest =>
    let roi := roiOf frame det.dx det.dy det.dw det.dh
    let info := analyze_region roi cb
    let priority := determine_priority det.label info.is_problematic
    let obj : DetectedObject :=
      ⟨det.label, det.confidence, det.dx, det.dy, det.dw, det.dh,
        info.dominant_colors, info.is_problematic, info.warning, priority⟩
    let tail := processDets frame cb rest
    let alerts :=
      if info.is_problematic = true ∧ (priority = "critical" ∨ priority = "high") then
        (det.label ++ ": " ++ warningStr info.warning) :: tail.2
      else tail.2
    (obj :: tail.1, alerts)

/-- The `/detect` endpoint body after image decoding and profile
parsing: run the detector on the raw anchor tensor, analyze each
region, and aggregate the alert message (first three alerts joined by
a semicolon, `None` when there are none). -/
def detectWithProfile (frame : List (List Hsv)) (outputs : List (List (List ℚ)))
    (cb : ColorBlindnessType) (min_confidence : ℚ) : DetectionResponse :=
  let frame_height := frame.length
  let frame_width := (frame.headD []).length
  let detections := detect outputs frame_width frame_height min_confidence
  let oa := processDets frame cb detections
  let alert_message :=
    if oa.2.isEmpty then none
    else some (String.intercalate "; " (oa.2.take 3))
  ⟨oa.1, frame_width, frame_height, alert_message⟩

/-- `detect_objects` of `main.py` (image decoding and the inference
forward pass are external: the decoded frame and the raw anchor tensor
are taken as arguments): parse the colorblindness profile, then
process the request under it. -/
def detect_objects (frame : List (List Hsv)) (outputs : List (List (List ℚ)))
    (colorblindness_type : String) (min_confidence : ℚ) : DetectionResponse :=
  detectWithProfile frame outputs (parseProfile colorblindness_type) min_confidence

/-- The eight recognized profile strings (the values of the
`ColorBlindnessType` enumeration). -/
def recognizedProfiles : List String :=
  ["normal", "protanopia", "protanomaly", "deuteranopia", "deuteranomaly",
   "tritanopia", "tritanomaly", "achromatopsia"]

/-- Sum of the retained percentages of a colour breakdown. -/
def sumValues (bd : List (String × ℚ)) : ℚ := (bd.map Prod.snd).sum

/-- Modelled from the spec's rule for the Colorblindness Impact
Evaluator (section 4.4): with an empty problematic set, `(false, none)`;
otherwise scan the breakdown for buckets that are in the problematic
set and exceed 10 percent; if none, `(false, none)`, else a warning
listing the display names of the first at most two matching buckets in
breakdown iteration order. -/
def spec_is_problematic (bd : List (String × ℚ))
    (t : ColorBlindnessType) : Bool × Option String :=
  let probl := PROBLEMATIC_COLORS t
  let matching := bd.filter fun p => decide (p.1 ∈ probl) && decide (10 < p.2)
  if probl = [] then (false, none)
  else if matching = [] then (false, none)
  else
    (true, some ("Contains " ++
      String.intercalate ", " ((matching.take 2).map fun p => displayName p.1) ++
      " - may be difficult to see"))

/-- Modelled from the spec's six-row final-priority table (section 4.5),
keyed on (matches a critical keyword, matches a high keyword,
isProblematic). -/
def spec_determine_priority (label : String) (is_problematic : Bool) : String :=
  match criticalObjects.any (fun o => strIn o (pyLower label)),
        highObjects.any (fun o => strIn o (pyLower label)), is_problematic with
  | true, _, true => "critical"
  | true, _, false => "high"
  | false, true, true => "high"
  | false, true, false => "normal"
  | false, false, true => "normal"
  | false, false, false => "low"

/-- The spec's frame-level alert qualification (section 4.5): an
analyzed object contributes an alert iff it is problematic and its
final priority is critical or high. -/
def qualifiesForAlert (o : DetectedObject) : Bool :=
  o.is_problematic_color && (decide (o.priority = "critical") || decide (o.priority = "high"))

/-- The spec's alert entry for one qualifying object:
`"<label>: <warning-or-default>"` with the default text used when the
warning is null. -/
def specAlertEntry (o : DetectedObject) : String :=
  o.label ++ ": " ++ o.color_warning.getD "color may be hard to see"

/-- Keep the first occurrence of each display name not already seen:
the spec-side description of the deduplication performed by the
Dominant Color Selector. -/
def dedupFrom (seen : List String) : List String → List String
  | [] => []
  | d :: rest =>
    if d ∈ seen then dedupFrom seen rest else d :: dedupFrom (d :: seen) rest

/-- A one-pixel region sitting exactly on the shared inclusive hue
boundary of `red_low` and `orange`. -/
def boundaryPixelRegion : List Hsv := [⟨10, 255, 255⟩]

/-- A one-pixel pure-red region (hue 5: only `red_low` matches). -/
def redPixelRegion : List Hsv := [⟨5, 255, 255⟩]

/-- A 2 by 2 frame of pure red pixels used as a concrete end-to-end
input. -/
def exFrame : List (List Hsv) :=
  [[⟨0, 255, 255⟩, ⟨0, 255, 255⟩], [⟨0, 255, 255⟩, ⟨0, 255, 255⟩]]

/-- One anchor row covering the whole 2 by 2 frame with class 0
(person) at score 0.9. -/
def exRow : List ℚ := [1/2, 1/2, 1, 1, 0, 9/10]

/-- The raw anchor tensor containing just `exRow`. -/
def exOutputs : List (List (List ℚ)) := [[exRow]]

/-- The analyzed object the pipeline produces from `exFrame` and
`exOutputs` under the protanopia profile. -/
def exObj : DetectedObject :=
  ⟨"person", 9/10, 0, 0, 2, 2, ["red"], true,
    some "Contains red - may be difficult to see", "normal"⟩

/-- An anchor row centred on a 100 by 100 frame with class 0 (person)
at score 0.9. -/
def exRowSmall : List ℚ := [1/2, 1/2, 1/2, 1/2, 0, 9/10]

/-- The detection produced from `exRowSmall` on a 100 by 100 frame. -/
def exDetection : Detection := ⟨"person", 9/10, 25, 25, 50, 50, "medium", false⟩

end TrueLight

namespace TrueLight

theorem findProblematic_eq (probl : List String) (bd : List (String × ℚ)) :
    findProblematic probl bd =
      (bd.filter fun p => decide (p.1 ∈ probl) && decide (10 < p.2)).map
        fun p => (displayName p.1, p.2) := by
  induction bd with
  | nil => rfl
  | cons hd tl ih =>
    obtain ⟨c, p⟩ := hd
    by_cases h : c ∈ probl ∧ 10 < p
    · simp [findProblematic, List.filter_cons, h, h.1, h.2, ih]
    · rw [Decidable.not_and_iff_or_not] at h
      rcases h with h | h <;> simp [findProblematic, List.filter_cons, h, ih]

/-- Claim C2: `is_problematic_for_user` agrees everywhere with the
spec's rule (empty problematic set or no matching bucket above 10
percent gives `(false, none)`; otherwise `(true, w)` with `w` listing
the display names of the first at most two matching buckets in
breakdown order), and the spec's end-to-end example holds. -/
theorem C2_impact_evaluator_spec :
    (∀ bd t, is_problematic_for_user bd t = spec_is_problematic bd t) ∧
      is_problematic_for_user [("red_low", 40)] .PROTANOPIA =
        (true, some "Contains red - may be difficult to see") := by
  constructor
  · intro bd t
    unfold is_problematic_for_user spec_is_problematic
    simp only [findProblematic_eq]
    by_cases hp : PROBLEMATIC_COLORS t = []
    · simp [hp]
    · by_cases hm : (bd.filter fun p => decide (p.1 ∈ PROBLEMATIC_COLORS t) && decide (10 < p.2)) = []
      · simp [hp, hm]
      · simp [hp, hm, List.isEmpty_iff, ← List.map_take, List.map_map,
          Function.comp_def]
  · with_unfolding_all rfl

/-- Claim C3: `determine_priority` agrees everywhere with the spec's
six-row table, and the stop-sign example holds in both branches. -/
theorem C3_priority_table :
    (∀ label p, determine_priority label p = spec_determine_priority label p) ∧
      determine_priority "stop sign" true = "critical" ∧
      determine_priority "stop sign" false = "high" := by
  refine ⟨fun label p => ?_, by with_unfolding_all rfl, by with_unfolding_all rfl⟩
  unfold determine_priority spec_determine_priority
  rcases h1 : criticalObjects.any fun o => strIn o (pyLower label) <;>
    rcases h2 : highObjects.any fun o => strIn o (pyLower label) <;>
    rcases p <;> simp [h1, h2]

/-- Claim C6: a zero-pixel region yields an empty breakdown from
`detect_colors`, and `analyze_region` yields no dominant colors, a
false problem flag and a null warning, for every profile. -/
theorem C6_zero_area :
    detect_colors [] = [] ∧
      ∀ t, (analyze_region [] t).dominant_colors = [] ∧
        (analyze_region [] t).is_problematic = false ∧
        (analyze_region [] t).warning = none := by
  exact ⟨rfl, fun t => ⟨rfl, rfl, rfl⟩⟩

/-- Counterexample to claim C1: the pixel `(10, 255, 255)` lies on the
shared inclusive hue boundary of `red_low` and `orange`, so a
one-pixel region is counted in both buckets and the retained
percentages sum to 200, not at most 100. -/
theorem C1_counterexample :
    sumValues (detect_colors boundaryPixelRegion) = 200 ∧
      ¬ sumValues (detect_colors boundaryPixelRegion) ≤ 100 := by
  have h : sumValues (detect_colors boundaryPixelRegion) = 200 := by
    with_unfolding_all rfl
  exact ⟨h, by rw [h]; norm_num⟩

/-- Counterexample to claim C5: with `top_n = 0` the length check of
`get_dominant_colors` runs only after the first append, so a region
with a retained bucket yields one display name, exceeding `top_n`. -/
theorem C5_counterexample :
    get_dominant_colors redPixelRegion 0 = ["red"] ∧
      ¬ (get_dominant_colors redPixelRegion 0).length ≤ 0 := by
  have h : get_dominant_colors redPixelRegion 0 = ["red"] := by
    with_unfolding_all rfl
  exact ⟨h, by rw [h]; simp⟩

theorem lookup_filterMap_none (roi : List Hsv) :
    ∀ (L : List (String × HsvRange)) (key : String), key ∉ L.map Prod.fst →
      (L.filterMap fun nr =>
          if 5 < pctOf roi nr.2 then some (nr.1, round1 (pctOf roi nr.2)) else none).lookup
          key = none := by
  intro L
  induction L with
  | nil => intro key _; rfl
  | cons r rest ih =>
    intro key hkey
    simp only [List.map_cons, List.mem_cons, not_or] at hkey
    by_cases hc : 5 < pctOf roi r.2
    · have hb : (key == r.1) = false := beq_eq_false_iff_ne.2 hkey.1
      simp only [List.filterMap_cons, hc, if_pos, List.lookup, hb]
      exact ih key hkey.2
    · simp only [List.filterMap_cons, hc, ite_false]
      exact ih key hkey.2

theorem lookup_detect_colors_aux (roi : List Hsv) :
    ∀ (L : List (String × HsvRange)), (L.map Prod.fst).Nodup → ∀ nr ∈ L,
      (L.filterMap fun nr2 =>
          if 5 < pctOf roi nr2.2 then some (nr2.1, round1 (pctOf roi nr2.2)) else none).lookup
          nr.1 =
        if 5 < pctOf roi nr.2 then some (round1 (pctOf roi nr.2)) else none := by
  intro L
  induction L with
  | nil => intro _ nr h; cases h
  | cons r rest ih =>
    intro hnd nr hmem
    simp only [List.map_cons, List.nodup_cons] at hnd
    rcases List.mem_cons.1 hmem with rfl | htl
    · by_cases hc : 5 < pctOf roi nr.2
      · simp [List.filterMap_cons, hc, List.lookup]
      · simp only [List.filterMap_cons, hc, ite_false]
        rw [lookup_filterMap_none roi rest nr.1 hnd.1]
    · have hne : nr.1 ≠ r.1 := by
        intro he
        exact hnd.1 (he ▸ List.mem_map_of_mem Prod.fst htl)
      by_cases hc : 5 < pctOf roi r.2
      · have hb : (nr.1 == r.1) = false := beq_eq_false_iff_ne.2 hne
        simp only [List.filterMap_cons, hc, if_pos, List.lookup, hb]
        exact ih hnd.2 nr htl
      · simp only [List.filterMap_cons, hc, ite_false]
        exact ih hnd.2 nr htl

/-- Claim C7: for a non-empty region, the breakdown of `detect_colors`
contains a bucket iff its exact percentage
`(matching pixels / total pixels) * 100` strictly exceeds 5, and the
stored value is that percentage rounded to one decimal. -/
theorem C7_retention_threshold (roi : List Hsv) (h : roi ≠ [])
    (nr : String × HsvRange) (hmem : nr ∈ COLOR_RANGES) :
    (detect_colors roi).lookup nr.1 =
      if 5 < pctOf roi nr.2 then some (round1 (pctOf roi nr.2)) else none := by
  have hne : roi.isEmpty = false := by simpa [List.isEmpty_iff] using h
  unfold detect_colors
  rw [hne]
  exact lookup_detect_colors_aux roi COLOR_RANGES (by decide) nr hmem

theorem C7_retention_threshold_witness :
    redPixelRegion ≠ [] ∧
      ("red_low", (⟨⟨0, 100, 100⟩, ⟨10, 255, 255⟩⟩ : HsvRange)) ∈ COLOR_RANGES ∧
      (detect_colors redPixelRegion).lookup "red_low" = some 100 := by
  have h1 : redPixelRegion ≠ [] := by simp [redPixelRegion]
  have h2 : ("red_low", (⟨⟨0, 100, 100⟩, ⟨10, 255, 255⟩⟩ : HsvRange)) ∈ COLOR_RANGES := by
    decide
  exact ⟨h1, h2,
    (C7_retention_threshold redPixelRegion h1 _ h2).trans (by with_unfolding_all rfl)⟩

theorem parseProfile_unrecognized (s : String)
    (h : pyLower s ∉ recognizedProfiles) : parseProfile s = .NORMAL := by
  unfold parseProfile
  simp only [recognizedProfiles, List.mem_cons, List.mem_singleton, not_or] at h
  obtain ⟨h1, h2, h3, h4, h5, h6, h7, h8⟩ := h
  simp [h1, h2, h3, h4, h5, h6, h7, h8]

/-- Claim C9: a request whose colorblindness-profile string is not
(case-insensitively) one of the eight recognized names is processed
under the normal profile, with a response identical to supplying
"normal". -/
theorem C9_unknown_profile (s : String) (h : pyLower s ∉ recognizedProfiles)
    (frame : List (List Hsv)) (outputs : List (List (List ℚ))) (conf : ℚ) :
    detect_objects frame outputs s conf = detect_objects frame outputs "normal" conf := by
  unfold detect_objects
  rw [parseProfile_unrecognized s h,
    show parseProfile "normal" = .NORMAL from by with_unfolding_all rfl]

theorem pyRound_le (q : ℚ) : (pyRound q : ℚ) ≤ q + 1/2 := by
  unfold pyRound
  have h1 := Int.floor_le q
  split_ifs <;> push_cast <;> linarith

theorem round1_le (q : ℚ) : round1 q ≤ q + 1/20 := by
  have h := pyRound_le (10 * q)
  unfold round1
  linarith

theorem pctOf_nonneg (roi : List Hsv) (r : HsvRange) : 0 ≤ pctOf roi r := by
  unfold pctOf
  positivity

set_option maxHeartbeats 1000000 in
theorem ranges_countP_le_two (p : Hsv) :
    COLOR_RANGES.countP (fun nr => inRange nr.2 p) ≤ 2 := by
  obtain ⟨h, s, v⟩ := p
  simp only [COLOR_RANGES, List.countP_cons, List.countP_nil, inRange,
    decide_eq_true_eq]
  split_ifs <;> omega

theorem sum_countP_cons (L : List (String × HsvRange)) (p : Hsv) (t : List Hsv) :
    (L.map fun nr => (p :: t).countP (inRange nr.2)).sum
      = (L.map fun nr => t.countP (inRange nr.2)).sum
        + L.countP fun nr => inRange nr.2 p := by
  induction L with
  | nil => rfl
  | cons r rest ih =>
    have hh : (p :: t).countP (inRange r.2)
        = t.countP (inRange r.2) + if inRange r.2 p then 1 else 0 :=
      List.countP_cons _ _ _
    rw [List.map_cons, List.sum_cons, ih, hh, List.map_cons, List.sum_cons,
      List.countP_cons]
    split_ifs <;> omega

theorem sum_counts_le (roi : List Hsv) :
    (COLOR_RANGES.map fun nr => roi.countP (inRange nr.2)).sum ≤ 2 * roi.length := by
  induction roi with
  | nil => decide
  | cons p t ih =>
    rw [sum_countP_cons]
    have h2 := ranges_countP_le_two p
    simp only [List.length_cons]
    omega

theorem sum_pctOf (roi : List Hsv) (L : List (String × HsvRange)) :
    (L.map fun nr => pctOf roi nr.2).sum
      = ((L.map fun nr => roi.countP (inRange nr.2)).sum : ℚ)
          / (roi.length : ℚ) * 100 := by
  induction L with
  | nil => simp
  | cons r rest ih =>
    simp only [List.map_cons, List.sum_cons]
    rw [ih]
    simp only [pctOf]
    push_cast
    ring

theorem sumValues_le_aux (roi : List Hsv) (L : List (String × HsvRange)) :
    sumValues (L.filterMap fun nr =>
        if 5 < pctOf roi nr.2 then some (nr.1, round1 (pctOf roi nr.2)) else none)
      ≤ (L.map fun nr => pctOf roi nr.2).sum + L.length * (1/20) := by
  induction L with
  | nil => simp [sumValues]
  | cons r rest ih =>
    by_cases hc : 5 < pctOf roi r.2
    · simp only [List.filterMap_cons, hc, if_pos, sumValues, List.map_cons,
        List.sum_cons, List.length_cons]
      have hr := round1_le (pctOf roi r.2)
      simp only [sumValues] at ih
      push_cast
      linarith
    · simp only [List.filterMap_cons, hc, ite_false, sumValues, List.map_cons,
        List.sum_cons, List.length_cons]
      have h0 := pctOf_nonneg roi r.2
      simp only [sumValues] at ih
      push_cast
      linarith

/-- Amended claim C1 (the original fails on shared hue boundaries): for
every pixel region the retained-bucket percentages of `detect_colors`
sum to at most 200.5.  A pixel can match at most two of the 10 static
buckets because adjacent hue ranges share an inclusive boundary value,
bounding the unrounded sum by 200, and rounding to one decimal adds at
most 0.05 per retained bucket. -/
theorem C1_amended_sum_bound (roi : List Hsv) :
    sumValues (detect_colors roi) ≤ 401/2 := by
  by_cases hr : roi.isEmpty
  · rw [detect_colors, if_pos hr]
    norm_num [sumValues]
  · have hne : roi ≠ [] := by simpa [List.isEmpty_iff] using hr
    have hn : 0 < (roi.length : ℚ) := by
      exact_mod_cast List.length_pos.2 hne
    have h1 := sumValues_le_aux roi COLOR_RANGES
    have h3 := sum_counts_le roi
    have h3q : ((COLOR_RANGES.map fun nr => roi.countP (inRange nr.2)).sum : ℚ)
        ≤ 2 * (roi.length : ℚ) := by exact_mod_cast h3
    have h4 : ((COLOR_RANGES.map fun nr => roi.countP (inRange nr.2)).sum : ℚ)
        / (roi.length : ℚ) * 100 ≤ 200 := by
      rw [div_mul_eq_mul_div, div_le_iff₀ hn]
      nlinarith
    rw [sum_pctOf roi COLOR_RANGES] at h1
    have hlen : ((COLOR_RANGES.length : ℕ) : ℚ) = 10 := by norm_num [COLOR_RANGES]
    rw [hlen] at h1
    rw [detect_colors, if_neg hr]
    linarith

theorem dominantLoop_eq (n : ℕ) :
    ∀ (l : List (String × ℚ)) (seen dominant : List String),
      dominant.length < n →
      dominantLoop n seen dominant l =
        (dominant ++ dedupFrom seen (l.map fun p => displayName p.1)).take n := by
  intro l
  induction l with
  | nil =>
    intro seen dominant h
    simp [dominantLoop, dedupFrom, List.take_of_length_le (Nat.le_of_lt h)]
  | cons hd tl ih =>
    intro seen dominant h
    obtain ⟨c, q⟩ := hd
    by_cases hseen : displayName c ∈ seen
    · simp only [dominantLoop, hseen, if_pos, List.map_cons, dedupFrom]
      rw [if_neg (Nat.not_le_of_lt h)]
      exact ih seen dominant h
    · simp only [dominantLoop, hseen, if_neg, List.map_cons, dedupFrom, ite_false]
      by_cases hlen : n ≤ (dominant ++ [displayName c]).length
      · rw [if_pos (by simpa using hlen)]
        have hlen2 : (dominant ++ [displayName c]).length = n := by
          simp only [List.length_append, List.length_singleton]
          simp only [List.length_append, List.length_singleton] at hlen
          omega
        rw [show dominant ++ displayName c ::
              dedupFrom (displayName c :: seen) (tl.map fun p => displayName p.1) =
            (dominant ++ [displayName c]) ++
              dedupFrom (displayName c :: seen) (tl.map fun p => displayName p.1) by
          simp]
        rw [← hlen2, List.take_left]
      · rw [if_neg (by simpa using hlen)]
        rw [ih (displayName c :: seen) (dominant ++ [displayName c])
          (by simp at hlen ⊢; omega)]
        congr 1
        simp

theorem dedupFrom_nodup :
    ∀ (l : List String) (seen : List String),
      (dedupFrom seen l).Nodup ∧ ∀ x ∈ dedupFrom seen l, x ∉ seen := by
  intro l
  induction l with
  | nil => intro seen; exact ⟨List.nodup_nil, by simp [dedupFrom]⟩
  | cons d rest ih =>
    intro seen
    by_cases hd : d ∈ seen
    · simpa [dedupFrom, hd] using ih seen
    · have ihd := ih (d :: seen)
      simp only [dedupFrom, hd, ite_false]
      constructor
      · refine List.nodup_cons.2 ⟨fun hmem => ?_, ihd.1⟩
        exact ihd.2 d hmem (List.mem_cons_self d seen)
      · intro x hx
        rcases List.mem_cons.1 hx with rfl | hx2
        · exact hd
        · exact fun hxs => ihd.2 x hx2 (List.mem_cons_of_mem d hxs)

/-- Amended claim C5 (the original fails at `top_n = 0`): for every
region and every `top_n ≥ 1`, `get_dominant_colors` returns exactly
the first `top_n` distinct display names of the breakdown sorted
stably by descending percentage (ties broken by catalog iteration
order, repeated display names skipped without counting), so the result
has no duplicates and at most `top_n` entries. -/
theorem C5_amended_dominant_colors (roi : List Hsv) (top_n : ℕ) (h : 1 ≤ top_n) :
    get_dominant_colors roi top_n =
        (dedupFrom [] ((sortDesc (detect_colors roi)).map fun p =>
          displayName p.1)).take top_n ∧
      (get_dominant_colors roi top_n).Nodup ∧
      (get_dominant_colors roi top_n).length ≤ top_n := by
  have he : get_dominant_colors roi top_n =
      (dedupFrom [] ((sortDesc (detect_colors roi)).map fun p =>
        displayName p.1)).take top_n := by
    unfold get_dominant_colors
    rw [dominantLoop_eq top_n (sortDesc (detect_colors roi)) [] []
      (by simpa using h)]
    simp
  refine ⟨he, ?_, ?_⟩
  · rw [he]
    exact (dedupFrom_nodup _ []).1.sublist (List.take_sublist _ _)
  · rw [he]
    exact List.length_take_le _ _

theorem C5_amended_dominant_colors_witness :
    (1 ≤ 3 ∧ get_dominant_colors redPixelRegion 3 = ["red"]) ∧
      (get_dominant_colors redPixelRegion 3).Nodup ∧
      (get_dominant_colors redPixelRegion 3).length ≤ 3 := by
  have h := C5_amended_dominant_colors redPixelRegion 3 (by norm_num)
  refine ⟨⟨by norm_num, ?_⟩, h.2.1, h.2.2⟩
  rw [h.1]
  with_unfolding_all rfl

theorem ipfu_warning_iff (bd : List (String × ℚ)) (t : ColorBlindnessType) :
    (is_problematic_for_user bd t).1 = true ↔
      (is_problematic_for_user bd t).2 ≠ none := by
  unfold is_problematic_for_user
  by_cases hp : (PROBLEMATIC_COLORS t).isEmpty
  · simp [hp]
  · by_cases hf : (findProblematic (PROBLEMATIC_COLORS t) bd).isEmpty
    · simp [hp, hf]
    · simp [hp, hf]

theorem analyze_region_warning (roi : List Hsv) (t : ColorBlindnessType)
    (h : (analyze_region roi t).is_problematic = true) :
    (analyze_region roi t).warning ≠ none := by
  by_cases hr : roi.isEmpty
  · simp [analyze_region, hr] at h
  · simp only [analyze_region, hr, Bool.false_eq_true, if_false] at h ⊢
    exact (ipfu_warning_iff _ _).1 h

theorem processDets_warning (frame : List (List Hsv)) (cb : ColorBlindnessType) :
    ∀ (dets : List Detection) (o : DetectedObject), o ∈ (processDets frame cb dets).1 →
      o.is_problematic_color = true → o.color_warning ≠ none := by
  intro dets
  induction dets with
  | nil => intro o h; cases h
  | cons det rest ih =>
    intro o hmem hprob
    simp only [processDets] at hmem
    rcases List.mem_cons.1 hmem with rfl | htl
    · exact analyze_region_warning _ _ hprob
    · exact ih o htl hprob

theorem processDets_alerts (frame : List (List Hsv)) (cb : ColorBlindnessType) :
    ∀ dets : List Detection,
      (processDets frame cb dets).2 =
        ((processDets frame cb dets).1.filter qualifiesForAlert).map specAlertEntry := by
  intro dets
  induction dets with
  | nil => rfl
  | cons det rest ih =>
    simp only [processDets]
    set info := analyze_region (roiOf frame det.dx det.dy det.dw det.dh) cb with hinfo
    set priority := determine_priority det.label info.is_problematic with hpri
    set obj : DetectedObject :=
      ⟨det.label, det.confidence, det.dx, det.dy, det.dw, det.dh,
        info.dominant_colors, info.is_problematic, info.warning, priority⟩ with hobj
    by_cases hc : info.is_problematic = true ∧ (priority = "critical" ∨ priority = "high")
    · obtain ⟨w, hw⟩ : ∃ w, info.warning = some w := by
        rcases hww : info.warning with _ | w
        · exact absurd hww (analyze_region_warning _ _ hc.1)
        · exact ⟨w, rfl⟩
      have hq : qualifiesForAlert obj = true := by
        rcases hc.2 with h | h <;> simp [qualifiesForAlert, hobj, hc.1, h]
      simp only [if_pos hc, List.filter_cons, hq, if_pos, List.map_cons, ih]
      have hhead : det.label ++ ": " ++ warningStr info.warning = specAlertEntry obj := by
        simp [specAlertEntry, warningStr, hobj, hw]
      rw [hhead]
    · have hq : qualifiesForAlert obj = false := by
        by_cases hb : info.is_problematic = true
        · have h2 : ¬(priority = "critical" ∨ priority = "high") := not_and.1 hc hb
          push_neg at h2
          simp [qualifiesForAlert, hobj, hb, h2.1, h2.2]
        · have hb2 : info.is_problematic = false := by
            cases hi : info.is_problematic
            · rfl
            · exact absurd hi hb
          simp [qualifiesForAlert, hobj, hb2]
      simp only [if_neg hc, List.filter_cons, hq, ih]
      simp

/-- Claim C4: for every processed frame, the alert message is built
from exactly the qualifying analyzed objects (problematic, with final
priority critical or high), in per-object processing order, each as
`"<label>: <warning-or-default>"`; it is the first at most three such
entries joined by a semicolon, and null when no object qualifies. -/
theorem C4_alert_aggregation (frame : List (List Hsv)) (outputs : List (List (List ℚ)))
    (cbStr : String) (conf : ℚ) :
    (detect_objects frame outputs cbStr conf).alert_message =
      if (((detect_objects frame outputs cbStr conf).objects.filter
            qualifiesForAlert).map specAlertEntry).isEmpty then none
      else some (String.intercalate "; "
        ((((detect_objects frame outputs cbStr conf).objects.filter
            qualifiesForAlert).map specAlertEntry).take 3)) := by
  simp only [detect_objects, detectWithProfile]
  rw [processDets_alerts]

/-- Claim C10: `is_problematic_for_user` returns a non-null warning iff
it returns a true problem flag, and consequently every analyzed object
of a processed frame with a true problem flag carries a non-null
warning (so the alert default text for a null warning is never
exercised). -/
theorem C10_warning_iff_problematic :
    (∀ bd t, ((is_problematic_for_user bd t).1 = true ↔
        (is_problematic_for_user bd t).2 ≠ none)) ∧
      ∀ (frame : List (List Hsv)) (outputs : List (List (List ℚ)))
        (cbStr : String) (conf : ℚ) (o : DetectedObject),
        o ∈ (detect_objects frame outputs cbStr conf).objects →
        o.is_problematic_color = true → o.color_warning ≠ none := by
  refine ⟨fun bd t => ipfu_warning_iff bd t, ?_⟩
  intro frame outputs cbStr conf o hmem hprob
  simp only [detect_objects, detectWithProfile] at hmem
  exact processDets_warning frame (parseProfile cbStr) _ o hmem hprob

theorem C10_warning_iff_problematic_witness :
    exObj ∈ (detect_objects exFrame exOutputs "protanopia" (1/2)).objects ∧
      exObj.is_problematic_color = true ∧ exObj.color_warning ≠ none := by
  have hm : exObj ∈ (detect_objects exFrame exOutputs "protanopia" (1/2)).objects := by
    rw [show (detect_objects exFrame exOutputs "protanopia" (1/2)).objects = [exObj] from by
      with_unfolding_all rfl]
    exact List.mem_singleton_self _
  exact ⟨hm, rfl,
    C10_warning_iff_problematic.2 exFrame exOutputs "protanopia" (1/2) exObj hm rfl⟩

theorem mem_nmsScan (nmsThr : ℚ) :
    ∀ (l kept : List RawDet) (x : RawDet), x ∈ nmsScan nmsThr kept l → x ∈ kept ∨ x ∈ l := by
  intro l
  induction l with
  | nil => intro kept x h; exact Or.inl h
  | cons d rest ih =>
    intro kept x h
    simp only [nmsScan] at h
    split at h
    · rcases ih _ x h with hk | hr
      · rcases List.mem_append.1 hk with hk | hk
        · exact Or.inl hk
        · exact Or.inr (List.mem_cons.2 (Or.inl (List.mem_singleton.1 hk)))
      · exact Or.inr (List.mem_cons_of_mem _ hr)
    · rcases ih _ x h with hk | hr
      · exact Or.inl hk
      · exact Or.inr (List.mem_cons_of_mem _ hr)

theorem mkCandidate_conf (w h : ℕ) (thr : ℚ) (row : List ℚ) (c : RawDet)
    (hc : mkCandidate w h thr row = some c) : thr < c.conf := by
  simp only [mkCandidate] at hc
  split at hc
  · next hlt =>
    cases hc
    exact hlt
  · cases hc

/-- Claim C8: every detection returned by `ObjectDetector.detect` has a
confidence (the maximum per-class score of its anchor row) strictly
above the confidence threshold; anchor rows whose best score is at or
below the threshold never contribute to the output. -/
theorem C8_confidence_filter (outputs : List (List (List ℚ))) (width height : ℕ)
    (thr : ℚ) (d : Detection) (hd : d ∈ detect outputs width height thr) :
    thr < d.confidence := by
  simp only [detect] at hd
  rw [(List.perm_insertionSort rankLe _).mem_iff] at hd
  obtain ⟨c, hcmem, rfl⟩ := List.mem_map.1 hd
  simp only [NMSBoxes] at hcmem
  rcases mem_nmsScan _ _ _ _ hcmem with hk | hl
  · cases hk
  · rw [(List.perm_insertionSort confGe _).mem_iff] at hl
    obtain ⟨row, _, hmk⟩ := List.mem_filterMap.1 (List.mem_of_mem_filter hl)
    simpa [mkDetection] using mkCandidate_conf width height thr row c hmk

theorem C8_confidence_filter_witness :
    exDetection ∈ detect [[exRowSmall]] 100 100 (1/2) ∧
      (1:ℚ)/2 < exDetection.confidence := by
  have hm : exDetection ∈ detect [[exRowSmall]] 100 100 (1/2) := by
    rw [show detect [[exRowSmall]] 100 100 (1/2) = [exDetection] from by
      with_unfolding_all rfl]
    exact List.mem_singleton_self _
  exact ⟨hm, C8_confidence_filter [[exRowSmall]] 100 100 (1/2) exDetection hm⟩

theorem C9_unknown_profile_witness :
    pyLower "xyz" ∉ recognizedProfiles ∧
      detect_objects exFrame exOutputs "xyz" (1/2) =
        detect_objects exFrame exOutputs "normal" (1/2) :=
  ⟨by decide,
    C9_unknown_profile "xyz" (by decide) exFrame exOutputs (1/2)⟩

end TrueLight
